import Mathlib

/-!
Shallow embedding of the chapter-generation pipeline of `auto-white-paper`
(`src/pipeline/orchestrator.py`, `src/agents/base_agent.py`,
`src/agents/introduction.py`, `src/output/latex_converter.py`,
`src/output/markdown_writer.py`, `src/analyzer/repository.py`,
`src/analyzer/code_parser.py`, `src/services/literature/genspark_client.py`).

External collaborator calls (repository extraction, static code analysis,
LLM generation, literature search, Markdown/LaTeX writers, PDF compilation)
are modelled as oracle parameters of `Except`/`Option` result type: `.error`
stands for a raised Python exception, `.ok` for a normal return, `none` for
`compile_pdf` returning `None`.  Python `int` is modelled as `Int`, `str`
as `String`, `dict` fields as association lists or structures following the
field comments in the source.
-/

namespace AWP

/-- Figure attachment of a chapter: `{path, caption, label}`
(`base_agent.py` line 18). -/
structure FigureInfo where
  path : String
  caption : String
  label : String
deriving DecidableEq, Repr

/-- Table attachment of a chapter: `{content, caption, label}`
(`base_agent.py` line 19). -/
structure TableInfo where
  content : String
  caption : String
  label : String
deriving DecidableEq, Repr

/-- Equation attachment of a chapter: `{latex, label, description}`
(`base_agent.py` line 20). -/
structure EquationInfo where
  latex : String
  label : String
  description : String
deriving DecidableEq, Repr

/-- Code listing attachment of a chapter: `{code, language, caption}`
(`base_agent.py` line 22). -/
structure CodeListing where
  code : String
  language : String
  caption : String
deriving DecidableEq, Repr

/-- Generated chapter content (`ChapterContent` dataclass,
`base_agent.py` lines 11-22). -/
structure ChapterContent where
  chapter_number : Int
  title : String
  content_markdown : String
  figures : List FigureInfo := []
  tables : List TableInfo := []
  equations : List EquationInfo := []
  references : List String := []
  code_listings : List CodeListing := []
deriving DecidableEq, Repr

/-- Repository information (`RepositoryInfo` dataclass,
`analyzer/repository.py` lines 17-30).  The nested `file_tree` dict is
flattened to `(path, kind)` pairs; it is never read by the orchestrator. -/
structure RepositoryInfo where
  url : String
  local_path : String
  name : String
  description : Option String := none
  default_branch : String := "main"
  languages : List (String × Int) := []
  readme_content : Option String := none
  file_tree : List (String × String) := []
  commits_count : Int := 0
  contributors : List String := []
  license : Option String := none
deriving DecidableEq, Repr

/-- One entry of the `modules` list built by `CodeAnalyzer.analyze`
(`analyzer/code_parser.py` lines 202-210). -/
structure ModuleSummary where
  path : String
  classes : List String
  functions : List String
  imports : List String
  docstring : Option String
deriving DecidableEq, Repr

/-- Result dictionary of `CodeAnalyzer.analyze`
(`analyzer/code_parser.py` lines 177-185); its keys become fields. -/
structure CodeAnalysis where
  modules : List ModuleSummary := []
  total_classes : Int := 0
  total_functions : Int := 0
  total_lines : Int := 0
  architecture_summary : String := ""
  main_entry_points : List String := []
  dependencies : List String := []
  languages : List (String × Int) := []
deriving DecidableEq, Repr

/-- Author dictionary `{name, affiliation}` used by the writers. -/
structure Author where
  name : String
  affiliation : String := ""
deriving DecidableEq, Repr

/-- Pipeline configuration (`PipelineConfig` dataclass,
`pipeline/orchestrator.py` lines 29-41), with the same defaults. -/
structure PipelineConfig where
  github_url : String
  output_dir : String := "./output"
  template_style : String := "ieee"
  language : String := "en"
  include_chapters : List Int := [1, 2, 3, 4, 5, 6, 7]
  research_keywords : List String := []
  review_after_chapters : List Int := []
  paper_title : String := "Generated Paper"
  authors : List Author := []
deriving DecidableEq, Repr

/-- Pipeline execution state (`PipelineState` dataclass,
`pipeline/orchestrator.py` lines 44-52), with the same defaults. -/
structure PipelineState where
  current_stage : String := "initialized"
  completed_chapters : List ChapterContent := []
  repo_info : Option RepositoryInfo := none
  code_analysis : Option CodeAnalysis := none
  errors : List String := []
deriving DecidableEq, Repr

/-- Keys of the chapter-agent registry built by
`PipelineOrchestrator._init_agents` (`orchestrator.py` lines 112-131):
one agent per chapter number 1..7. -/
def agentKeys : List Int := [1, 2, 3, 4, 5, 6, 7]

/-- First paragraph of a chapter body, the Python expression
`content_markdown.split("\n\n")[0]` (`base_agent.py` line 166): the prefix
of the text before the first occurrence of the separator `"\n\n"`, or the
whole text when the separator does not occur. -/
def first_paragraph : List Char → List Char
  | [] => []
  | '\n' :: '\n' :: _ => []
  | c :: cs => c :: first_paragraph cs

/-- One-line summary of a previous chapter
(`BaseChapterAgent._get_previous_context`, `base_agent.py` lines 164-167):
`f"Chapter {num} ({title}): "` followed by the first paragraph of the
chapter body truncated to 500 characters (the Python slice `[:500]` on
code points is `List.take 500` on the character list). -/
def chapter_summary (ch : ChapterContent) : String :=
  let n := ch.chapter_number
  let t := ch.title
  let first_para := String.mk ((first_paragraph ch.content_markdown.data).take 500)
  s!"Chapter {n} ({t}): " ++ first_para

/-- Accumulation loop of `_get_previous_context` (`base_agent.py` lines
160-173).  Input chapters are given most-recent first (the Python iterates
`reversed(previous_chapters)` and does `context_parts.insert(0, summary)`,
so the recursion appends the current summary after the parts contributed by
older chapters); the Python `break` at the first summary that does not fit
is the `else` branch returning `[]` for all remaining older chapters. -/
def build_context_parts : List ChapterContent → Nat → List String
  | [], _ => []
  | ch :: rest, remaining =>
    let summary := chapter_summary ch
    if summary.length ≤ remaining then
      build_context_parts rest (remaining - summary.length) ++ [summary]
    else
      []

/-- Context digest of previous chapters
(`BaseChapterAgent._get_previous_context`, `base_agent.py` lines 143-175).
`max_chars` defaults to 2000 at the Python call sites. -/
def get_previous_context (previous_chapters : List ChapterContent)
    (max_chars : Nat) : String :=
  if previous_chapters.isEmpty then ""
  else
    String.intercalate "\n\n" (build_context_parts previous_chapters.reverse max_chars)

/-- Chapter loop of `PipelineOrchestrator._stage_generate_chapters`
(`orchestrator.py` lines 224-251).  `gen n prev` is the oracle for
`self.agents[n].generate(...)` with the loop-invariant arguments
(`repo_dict`, `code_analysis`, `generation_config`) folded in; `prev` is
the `completed_chapters` list at call time.  The result triple is
(completed chapters, error log, trace of chapter numbers whose agent's
`generate` was invoked).  The review callback (lines 243-247) only logs a
warning and changes no state, so it does not appear. -/
def generateChaptersLoop
    (gen : Int → List ChapterContent → Except String ChapterContent) :
    List Int → List ChapterContent → List String → List Int →
      List ChapterContent × List String × List Int
  | [], chapters, errors, invoked => (chapters, errors, invoked)
  | n :: rest, chapters, errors, invoked =>
    if n ∈ agentKeys then
      match gen n chapters with
      | .ok chapter =>
        generateChaptersLoop gen rest (chapters ++ [chapter]) errors (invoked ++ [n])
      | .error e =>
        generateChaptersLoop gen rest chapters
          (errors ++ [s!"Chapter {n}: {e}"]) (invoked ++ [n])
    else
      generateChaptersLoop gen rest chapters errors invoked

/-- Stage 3, `PipelineOrchestrator._stage_generate_chapters`
(`orchestrator.py` lines 200-251): set the stage tag, then run the chapter
loop over `config.include_chapters` starting from the state's current
chapter list and error log.  Returns the new state and the invocation
trace. -/
def stage_generate_chapters
    (gen : Int → List ChapterContent → Except String ChapterContent)
    (cfg : PipelineConfig) (st : PipelineState) : PipelineState × List Int :=
  let st := { st with current_stage := "generating_chapters" }
  let r := generateChaptersLoop gen cfg.include_chapters st.completed_chapters st.errors []
  ({ st with completed_chapters := r.1, errors := r.2.1 }, r.2.2)

/-- Stage 1, `PipelineOrchestrator._stage_analyze_repository`
(`orchestrator.py` lines 166-184): set the stage tag, then run
`analyzer.clone(); analyzer.extract_info()` (the oracle
`extract_result`); on success store the `RepositoryInfo`, on exception
re-raise (the `except` block only logs). -/
def stage_analyze_repository (extract_result : Except String RepositoryInfo)
    (st : PipelineState) : Except (String × PipelineState) PipelineState :=
  let st := { st with current_stage := "analyzing_repository" }
  match extract_result with
  | .ok info => .ok { st with repo_info := some info }
  | .error e => .error (e, st)

/-- Stage 2, `PipelineOrchestrator._stage_analyze_code`
(`orchestrator.py` lines 186-198): set the stage tag, raise
`RuntimeError("Repository not analyzed")` when `repo_info` is unset,
otherwise run `CodeAnalyzer(...).analyze()` (the oracle) and overwrite the
result's `languages` key with `repo_info.languages`. -/
def stage_analyze_code (analyze_result : Except String CodeAnalysis)
    (st : PipelineState) : Except (String × PipelineState) PipelineState :=
  let st := { st with current_stage := "analyzing_code" }
  match st.repo_info with
  | none => .error ("Repository not analyzed", st)
  | some info =>
    match analyze_result with
    | .error e => .error (e, st)
    | .ok ca =>
      .ok { st with code_analysis := some { ca with languages := info.languages } }

/-- Stage 4, `PipelineOrchestrator._stage_generate_output`
(`orchestrator.py` lines 253-287): write Markdown (`md_write` is the
oracle for `MarkdownWriter.write`, returning `output_dir/paper.md`),
convert to LaTeX (`tex_convert` for `LaTeXConverter.convert_chapters`,
returning `output_dir/paper.tex`), then try `compile_pdf` (`pdf_result`;
`LaTeXConverter.compile_pdf` catches its own failures and returns `None`,
`latex_converter.py` lines 260-302).  If a PDF was produced return its
path, otherwise return the Markdown path (lines 283-287). -/
def stage_generate_output (md_write tex_convert : Except String String)
    (pdf_result : Option String) (st : PipelineState) :
    Except (String × PipelineState) (PipelineState × String) :=
  let st := { st with current_stage := "generating_output" }
  match md_write with
  | .error e => .error (e, st)
  | .ok md_path =>
    match tex_convert with
    | .error e => .error (e, st)
    | .ok _tex_path =>
      match pdf_result with
      | some pdf_path => .ok (st, pdf_path)
      | none => .ok (st, md_path)

/-- The whole run, `PipelineOrchestrator.run` (`orchestrator.py` lines
133-164): stages 1-4 in order; any exception is appended to the state's
error log and re-raised (lines 161-164).  Result: final pipeline state,
trace of invoked chapter agents, and either the returned output path or
the propagated exception. -/
def runPipeline (extract_result : Except String RepositoryInfo)
    (analyze_result : Except String CodeAnalysis)
    (gen : Int → List ChapterContent → Except String ChapterContent)
    (cfg : PipelineConfig)
    (md_write tex_convert : Except String String)
    (pdf_result : Option String) :
    PipelineState × List Int × Except String String :=
  let st0 : PipelineState := {}
  match stage_analyze_repository extract_result st0 with
  | .error (e, st) => ({ st with errors := st.errors ++ [e] }, [], .error e)
  | .ok st1 =>
    match stage_analyze_code analyze_result st1 with
    | .error (e, st) => ({ st with errors := st.errors ++ [e] }, [], .error e)
    | .ok st2 =>
      let r := stage_generate_chapters gen cfg st2
      match stage_generate_output md_write tex_convert pdf_result r.1 with
      | .error (e, st) => ({ st with errors := st.errors ++ [e] }, r.2, .error e)
      | .ok (st4, path) => (st4, r.2, .ok path)

/-- One literature search result (`LiteratureResult` dataclass,
`services/literature/genspark_client.py` lines 15-25). -/
structure LiteratureResult where
  title : String
  authors : List String
  year : Option Int
  abstract : Option String
  url : Option String
  citation_key : String
  source : String := "unknown"
deriving DecidableEq, Repr

/-- Collection of search results (`SearchResults` dataclass,
`genspark_client.py` lines 28-36). -/
structure SearchResults where
  query : String
  results : List LiteratureResult
  summary : String
  references : List String
  key_findings : List String
deriving DecidableEq, Repr

/-- Query construction of `IntroductionAgent._research_literature`
(`agents/introduction.py` lines 91-97): repository name, then the
description when truthy (present and non-empty), then the keywords,
joined by single spaces. -/
def build_literature_query (repo_name : String) (repo_description : Option String)
    (keywords : List String) : String :=
  let desc_part : List String :=
    match repo_description with
    | some d => if d = "" then [] else [d]
    | none => []
  String.intercalate " " ([repo_name] ++ desc_part ++ keywords)

/-- Literature research of `IntroductionAgent._research_literature`
(`agents/introduction.py` lines 77-114): call the literature client's
`search` on the built query; if it raises, substitute the placeholder
`SearchResults` with summary "Literature search unavailable" and empty
results, references and key findings (lines 104-114). -/
def research_literature (search : String → Except String SearchResults)
    (repo_name : String) (repo_description : Option String)
    (keywords : List String) : SearchResults :=
  let query := build_literature_query repo_name repo_description keywords
  match search query with
  | .ok results => results
  | .error _ =>
    { query := query
      results := []
      summary := "Literature search unavailable"
      references := []
      key_findings := [] }

/-! Test fixtures used by the concrete witnesses and counterexamples. -/

/-- Single chapter whose summary (35 characters) exceeds small budgets. -/
def c4_chapter : ChapterContent :=
  { chapter_number := 1, title := "T", content_markdown := "aaaaaaaaaaaaaaaaaaaa" }

/-- Older chapter of the two-chapter budget fixture. -/
def c4_chapterA : ChapterContent :=
  { chapter_number := 1, title := "T", content_markdown := "aaaaaaaaaaaaaaaaaaaa" }

/-- Most-recent chapter of the two-chapter budget fixture. -/
def c4_chapterB : ChapterContent :=
  { chapter_number := 2, title := "U", content_markdown := "bbbbbbbbbbbbbbbbbbbb" }

/-- The budget accumulation never lets the included summaries exceed the
remaining character budget. -/
theorem build_context_parts_sum_le (chs : List ChapterContent) (r : Nat) :
    ((build_context_parts chs r).map String.length).sum ≤ r := by
  induction chs generalizing r with
  | nil => simp [build_context_parts]
  | cons ch rest ih =>
    simp only [build_context_parts]
    by_cases h : (chapter_summary ch).length ≤ r
    · rw [if_pos h]
      have hr := ih (r - (chapter_summary ch).length)
      simp only [List.map_append, List.sum_append, List.map_cons, List.map_nil,
        List.sum_cons, List.sum_nil]
      omega
    · rw [if_neg h]
      simp

/-- C10: for the empty list of previous chapters the context-budgeting
function returns the empty digest, for every character budget. -/
theorem get_previous_context_nil (b : Nat) :
    get_previous_context [] b = "" := rfl

/-- C4 fails as stated: a single previous chapter whose summary (35
characters) exceeds the budget (10) makes the summaries total more than
the budget, yet the digest is empty — the most recent chapter's summary is
not included at all, let alone in full. -/
theorem context_budget_counterexample :
    10 < (([c4_chapter].map chapter_summary).map String.length).sum ∧
    get_previous_context [c4_chapter] 10 = "" ∧
    chapter_summary c4_chapter ≠ "" := by
  refine ⟨by decide, by decide, by decide⟩

/-- C4 amended: when the previous chapters' summaries total more than the
budget, the digest is the separator-join of a parts list that (a) ends
with the most recent chapter's summary in full provided that summary alone
fits within the budget, and (b) has summed summary length within the
budget. -/
theorem context_budget_amended (prev : List ChapterContent) (b : Nat)
    (ch : ChapterContent)
    (hlast : prev.getLast? = some ch)
    (htotal : b < ((prev.map chapter_summary).map String.length).sum)
    (hfit : (chapter_summary ch).length ≤ b) :
    ∃ parts : List String,
      get_previous_context prev b = String.intercalate "\n\n" parts ∧
      parts.getLast? = some (chapter_summary ch) ∧
      (parts.map String.length).sum ≤ b := by
  have hne : prev ≠ [] := by
    intro h
    subst h
    simp at hlast
  obtain ⟨t, ht⟩ : ∃ t, prev.reverse = ch :: t := by
    have h1 : prev.reverse.head? = some ch := by
      rw [List.head?_reverse]
      exact hlast
    cases hr : prev.reverse with
    | nil =>
      rw [hr] at h1
      simp at h1
    | cons a t =>
      rw [hr] at h1
      simp only [List.head?_cons, Option.some.injEq] at h1
      exact ⟨t, by rw [h1]⟩
  refine ⟨build_context_parts prev.reverse b, ?_, ?_, ?_⟩
  · unfold get_previous_context
    rw [if_neg (by simpa using hne)]
  · rw [ht]
    simp only [build_context_parts]
    rw [if_pos hfit]
    simp
  · exact build_context_parts_sum_le _ _

/-- Witness for the amended C4: two chapters with 35-character summaries
against budget 40 (total 70 exceeds the budget, the most recent summary
fits). -/
theorem context_budget_amended_witness :
    ∃ parts : List String,
      get_previous_context [c4_chapterA, c4_chapterB] 40 =
        String.intercalate "\n\n" parts ∧
      parts.getLast? = some (chapter_summary c4_chapterB) ∧
      (parts.map String.length).sum ≤ 40 :=
  context_budget_amended [c4_chapterA, c4_chapterB] 40 c4_chapterB rfl
    (by decide) (by decide)

/-- Successful generation fixture: the agent registered for chapter `n`
returns a chapter numbered `n` (each concrete agent fixes its own
`chapter_number`: `introduction.py` line 71, `existing_methods.py` line 55,
`proposed_method.py` line 57, `implementation.py` line 84,
`experiments.py` line 57, `discussion.py` line 59, `conclusion.py`
line 61). -/
def ok_chapter (n : Int) : ChapterContent :=
  { chapter_number := n, title := "Title", content_markdown := "body" }

/-- Oracle on which every agent call succeeds. -/
def gen_all_ok : Int → List ChapterContent → Except String ChapterContent :=
  fun n _ => .ok (ok_chapter n)

/-- Oracle on which exactly the chapter-2 agent raises. -/
def gen_fail2 : Int → List ChapterContent → Except String ChapterContent :=
  fun n _ => if n = 2 then .error "boom" else .ok (ok_chapter n)

/-- Configuration requesting chapters in the order `[2, 1]`. -/
def cfg21 : PipelineConfig := { github_url := "u", include_chapters := [2, 1] }

/-- Configuration requesting chapters `[1, 2, 3]` in ascending order. -/
def cfg123 : PipelineConfig := { github_url := "u", include_chapters := [1, 2, 3] }

/-- Characterization of the chapter loop when every registered agent
succeeds and returns its own chapter number: the completed chapter numbers
and the invocation trace extend the accumulators by the requested numbers
that have a registered agent, in request order; the error log is
unchanged. -/
theorem generateChaptersLoop_all_ok
    (gen : Int → List ChapterContent → Except String ChapterContent)
    (hok : ∀ n prev, n ∈ agentKeys → ∃ ch, gen n prev = .ok ch ∧ ch.chapter_number = n)
    (nums : List Int) :
    ∀ (chapters : List ChapterContent) (errors : List String) (invoked : List Int),
      ((generateChaptersLoop gen nums chapters errors invoked).1.map
          (fun c => c.chapter_number)
        = chapters.map (fun c => c.chapter_number)
            ++ nums.filter (fun n => decide (n ∈ agentKeys)))
      ∧ (generateChaptersLoop gen nums chapters errors invoked).2.1 = errors
      ∧ (generateChaptersLoop gen nums chapters errors invoked).2.2
          = invoked ++ nums.filter (fun n => decide (n ∈ agentKeys)) := by
  induction nums with
  | nil =>
    intro chapters errors invoked
    simp [generateChaptersLoop]
  | cons n rest ih =>
    intro chapters errors invoked
    by_cases hn : n ∈ agentKeys
    · obtain ⟨ch, hch, hnum⟩ := hok n chapters hn
      have h := ih (chapters ++ [ch]) errors (invoked ++ [n])
      simp only [generateChaptersLoop, if_pos hn, hch] at *
      simp only [List.filter_cons, decide_eq_true_eq, hn, if_true, List.map_append,
        List.map_cons, List.map_nil, hnum] at *
      refine ⟨?_, h.2.1, ?_⟩
      · rw [h.1]
        simp
      · rw [h.2.2]
        simp
    · have h := ih chapters errors invoked
      simp only [generateChaptersLoop, if_neg hn] at *
      simp only [List.filter_cons, decide_eq_true_eq, hn, if_false] at *
      exact h

/-- C1 fails as stated: with the request list `[2, 1]` (a valid non-empty
subset of 1..7 presented in descending order) and every agent succeeding,
the orchestrator invokes the agents in the order `[2, 1]` and appends the
chapters in the order `[2, 1]` — request order, not ascending numeric
order. -/
theorem request_order_counterexample :
    (stage_generate_chapters gen_all_ok cfg21 {}).2 = [2, 1] ∧
    (stage_generate_chapters gen_all_ok cfg21 {}).1.completed_chapters.map
      (fun c => c.chapter_number) = [2, 1] ∧
    ¬ List.Sorted (· ≤ ·)
      ((stage_generate_chapters gen_all_ok cfg21 {}).1.completed_chapters.map
        (fun c => c.chapter_number)) := by
  refine ⟨rfl, rfl, ?_⟩
  intro h
  have : (2 : Int) ≤ 1 := by
    have h2 : ((stage_generate_chapters gen_all_ok cfg21 {}).1.completed_chapters.map
        (fun c => c.chapter_number)) = [2, 1] := rfl
    rw [h2] at h
    exact List.rel_of_sorted_cons h 1 (by simp)
  omega

/-- C1 amended: the chapter-generation stage invokes agents and appends
completed chapters in the order the chapter numbers appear in the
requested list (skipping numbers with no registered agent), not in sorted
order; ascending generation order is obtained exactly when the requested
list itself is ascending, as with the default `[1,...,7]`. -/
theorem stage_generate_chapters_request_order
    (gen : Int → List ChapterContent → Except String ChapterContent)
    (cfg : PipelineConfig) (st : PipelineState)
    (hstart : st.completed_chapters = [])
    (hok : ∀ n prev, n ∈ agentKeys → ∃ ch, gen n prev = .ok ch ∧ ch.chapter_number = n) :
    ((stage_generate_chapters gen cfg st).1.completed_chapters.map
        (fun c => c.chapter_number)
      = cfg.include_chapters.filter (fun n => decide (n ∈ agentKeys)))
    ∧ (stage_generate_chapters gen cfg st).2
        = cfg.include_chapters.filter (fun n => decide (n ∈ agentKeys))
    ∧ (List.Sorted (· ≤ ·) cfg.include_chapters →
        List.Sorted (· ≤ ·)
          ((stage_generate_chapters gen cfg st).1.completed_chapters.map
            (fun c => c.chapter_number))) := by
  have h := generateChaptersLoop_all_ok gen hok cfg.include_chapters
    [] st.errors []
  simp only [List.map_nil, List.nil_append] at h
  simp only [stage_generate_chapters]
  rw [hstart]
  refine ⟨h.1, h.2.2, ?_⟩
  intro hsorted
  rw [h.1]
  exact hsorted.filter _

/-- Witness for the amended C1: requested list `[1, 2, 3]`, all agents
succeed; both the invocation trace and the chapter numbers equal the
filtered request list and are ascending. -/
theorem stage_generate_chapters_request_order_witness :
    ((stage_generate_chapters gen_all_ok cfg123 {}).1.completed_chapters.map
        (fun c => c.chapter_number)
      = cfg123.include_chapters.filter (fun n => decide (n ∈ agentKeys)))
    ∧ (stage_generate_chapters gen_all_ok cfg123 {}).2
        = cfg123.include_chapters.filter (fun n => decide (n ∈ agentKeys))
    ∧ (List.Sorted (· ≤ ·) cfg123.include_chapters →
        List.Sorted (· ≤ ·)
          ((stage_generate_chapters gen_all_ok cfg123 {}).1.completed_chapters.map
            (fun c => c.chapter_number))) :=
  stage_generate_chapters_request_order gen_all_ok cfg123 {} rfl
    (fun n _prev _ => ⟨ok_chapter n, rfl, rfl⟩)

/-- In a list without duplicates that contains `K`, filtering for `K`
yields exactly `[K]`. -/
theorem nodup_filter_eq_singleton (nums : List Int) (K : Int)
    (hnd : nums.Nodup) (hK : K ∈ nums) :
    nums.filter (fun n => decide (n = K)) = [K] := by
  induction nums with
  | nil => simp at hK
  | cons a rest ih =>
    rcases List.nodup_cons.mp hnd with ⟨ha, hrest⟩
    by_cases haK : a = K
    · subst haK
      simp only [List.filter_cons, decide_eq_true_eq, if_true]
      have : rest.filter (fun n => decide (n = a)) = [] := by
        rw [List.filter_eq_nil_iff]
        intro b hb
        simp only [decide_eq_true_eq]
        intro hba
        exact ha (hba ▸ hb)
      simp [this]
    · have hKrest : K ∈ rest := by
        rcases List.mem_cons.mp hK with h | h
        · exact absurd h.symm haK
        · exact h
      simp only [List.filter_cons, decide_eq_true_eq, haK, if_false]
      exact ih hrest hKrest

/-- Characterization of the chapter loop when the agent of chapter `K`
always raises `msg` and every other registered agent succeeds with its own
chapter number, over a request list whose members are all registered: every
requested number is attempted (in request order), the completed chapter
numbers are the requested numbers other than `K`, and each occurrence of
`K` appends one `"Chapter K: msg"` entry to the error log. -/
theorem generateChaptersLoop_one_fail
    (gen : Int → List ChapterContent → Except String ChapterContent)
    (K : Int) (msg : String)
    (hfail : ∀ prev, gen K prev = .error msg)
    (hok : ∀ n prev, n ≠ K → n ∈ agentKeys →
      ∃ ch, gen n prev = .ok ch ∧ ch.chapter_number = n) :
    ∀ (nums : List Int), (∀ n ∈ nums, n ∈ agentKeys) →
      ∀ (chapters : List ChapterContent) (errors : List String) (invoked : List Int),
        ((generateChaptersLoop gen nums chapters errors invoked).1.map
            (fun c => c.chapter_number)
          = chapters.map (fun c => c.chapter_number)
              ++ nums.filter (fun n => decide (n ≠ K)))
        ∧ (generateChaptersLoop gen nums chapters errors invoked).2.1
            = errors ++ (nums.filter (fun n => decide (n = K))).map
                (fun _ => s!"Chapter {K}: {msg}")
        ∧ (generateChaptersLoop gen nums chapters errors invoked).2.2
            = invoked ++ nums := by
  intro nums
  induction nums with
  | nil =>
    intro _ chapters errors invoked
    simp [generateChaptersLoop]
  | cons n rest ih =>
    intro hsub chapters errors invoked
    have hn : n ∈ agentKeys := hsub n (List.mem_cons_self n rest)
    have hsubrest : ∀ m ∈ rest, m ∈ agentKeys :=
      fun m hm => hsub m (List.mem_cons_of_mem n hm)
    by_cases hnK : n = K
    · subst hnK
      have h := ih hsubrest chapters (errors ++ [s!"Chapter {n}: {msg}"]) (invoked ++ [n])
      simp only [generateChaptersLoop, if_pos hn, hfail chapters] at *
      simp only [List.filter_cons, decide_eq_true_eq, if_true, if_false] at *
      refine ⟨?_, ?_, ?_⟩
      · rw [h.1]
        simp
      · rw [h.2.1]
        simp
      · rw [h.2.2]
        simp
    · obtain ⟨ch, hch, hnum⟩ := hok n chapters hnK hn
      have h := ih hsubrest (chapters ++ [ch]) errors (invoked ++ [n])
      simp only [generateChaptersLoop, if_pos hn, hch] at *
      simp only [List.filter_cons, decide_eq_true_eq, hnK, if_true, if_false,
        ne_eq, not_false_eq_true, List.map_append, List.map_cons, List.map_nil,
        hnum] at *
      refine ⟨?_, h.2.1, ?_⟩
      · rw [h.1]
        simp
      · rw [h.2.2]
        simp

/-- C2: over an ascending duplicate-free request list of registered
chapters containing `K`, if chapter `K`'s agent always raises and every
other agent succeeds, then every requested chapter (including those after
`K`) is still attempted in order, the final chapter list excludes `K` but
contains every other requested chapter in ascending order, and the error
log gains exactly one entry naming chapter `K`. -/
theorem chapter_failure_isolation
    (gen : Int → List ChapterContent → Except String ChapterContent)
    (cfg : PipelineConfig) (st : PipelineState) (K : Int) (msg : String)
    (hstart_ch : st.completed_chapters = [])
    (hstart_err : st.errors = [])
    (hsorted : List.Sorted (· < ·) cfg.include_chapters)
    (hsub : ∀ n ∈ cfg.include_chapters, n ∈ agentKeys)
    (hK : K ∈ cfg.include_chapters)
    (hfail : ∀ prev, gen K prev = .error msg)
    (hok : ∀ n prev, n ≠ K → n ∈ agentKeys →
      ∃ ch, gen n prev = .ok ch ∧ ch.chapter_number = n) :
    (stage_generate_chapters gen cfg st).2 = cfg.include_chapters
    ∧ (stage_generate_chapters gen cfg st).1.completed_chapters.map
        (fun c => c.chapter_number)
        = cfg.include_chapters.filter (fun n => decide (n ≠ K))
    ∧ K ∉ (stage_generate_chapters gen cfg st).1.completed_chapters.map
        (fun c => c.chapter_number)
    ∧ List.Sorted (· < ·)
        ((stage_generate_chapters gen cfg st).1.completed_chapters.map
          (fun c => c.chapter_number))
    ∧ (stage_generate_chapters gen cfg st).1.errors = [s!"Chapter {K}: {msg}"] := by
  have h := generateChaptersLoop_one_fail gen K msg hfail hok
    cfg.include_chapters hsub [] [] []
  simp only [List.map_nil, List.nil_append] at h
  simp only [stage_generate_chapters]
  rw [hstart_ch, hstart_err]
  have hfilterK : cfg.include_chapters.filter (fun n => decide (n = K)) = [K] :=
    nodup_filter_eq_singleton cfg.include_chapters K hsorted.nodup hK
  refine ⟨h.2.2, h.1, ?_, ?_, ?_⟩
  · rw [h.1]
    intro hmem
    rcases List.mem_filter.mp hmem with ⟨_, habs⟩
    simp at habs
  · rw [h.1]
    exact hsorted.filter _
  · rw [h.2.1, hfilterK]
    simp

/-- Witness for C2: request `[1, 2, 3]`, chapter 2's agent raises
`"boom"`, chapters 1 and 3 succeed. -/
theorem chapter_failure_isolation_witness :
    (stage_generate_chapters gen_fail2 cfg123 {}).2 = cfg123.include_chapters
    ∧ (stage_generate_chapters gen_fail2 cfg123 {}).1.completed_chapters.map
        (fun c => c.chapter_number)
        = cfg123.include_chapters.filter (fun n => decide (n ≠ (2 : Int)))
    ∧ (2 : Int) ∉ (stage_generate_chapters gen_fail2 cfg123 {}).1.completed_chapters.map
        (fun c => c.chapter_number)
    ∧ List.Sorted (· < ·)
        ((stage_generate_chapters gen_fail2 cfg123 {}).1.completed_chapters.map
          (fun c => c.chapter_number))
    ∧ (stage_generate_chapters gen_fail2 cfg123 {}).1.errors = [s!"Chapter {(2 : Int)}: boom"] :=
  chapter_failure_isolation gen_fail2 cfg123 {} 2 "boom" rfl rfl
    (by decide) (by decide) (by decide)
    (fun _prev => rfl)
    (fun n _prev hne _hk =>
      ⟨ok_chapter n, by simp [gen_fail2, hne], rfl⟩)

/-- C3: when repository extraction (stage 1) raises, the whole run raises
to the caller with the error recorded in the state's error log, the state
stops at the `analyzing_repository` stage (it never reaches
`generating_chapters`), the completed-chapter list is empty and the
invocation trace is empty — no chapter agent is ever invoked, whatever the
agent oracle, the request list, or the later stages would have done. -/
theorem extraction_failure_aborts_run (e : String)
    (analyze_result : Except String CodeAnalysis)
    (gen : Int → List ChapterContent → Except String ChapterContent)
    (cfg : PipelineConfig)
    (md_write tex_convert : Except String String)
    (pdf_result : Option String) :
    runPipeline (.error e) analyze_result gen cfg md_write tex_convert pdf_result =
      ({ current_stage := "analyzing_repository"
         completed_chapters := []
         repo_info := none
         code_analysis := none
         errors := [e] }, [], .error e)
    ∧ "analyzing_repository" ≠ "generating_chapters" := by
  exact ⟨rfl, by decide⟩

/-- C5 fails as stated: with a Markdown write returning `output/paper.md`,
a successful LaTeX conversion returning `output/paper.tex`, and
`compile_pdf` returning `None`, the output stage returns the Markdown
path — a path that ends in `.md`, not in the LaTeX file `.tex` — while
indeed raising no exception. -/
theorem pdf_fallback_counterexample :
    stage_generate_output (.ok "output/paper.md") (.ok "output/paper.tex") none {} =
      .ok ({ current_stage := "generating_output" }, "output/paper.md")
    ∧ ¬ (".tex".data <:+ ("output/paper.md").data)
    ∧ (".md".data <:+ ("output/paper.md").data) := by
  refine ⟨rfl, by decide, by decide⟩

/-- C5 amended: when PDF compilation fails but the Markdown write and the
LaTeX conversion succeed, the output stage returns the Markdown file's
path (not the LaTeX path) and no exception escapes the run — the whole
run returns that Markdown path normally. -/
theorem pdf_fallback_returns_markdown
    (info : RepositoryInfo) (ca : CodeAnalysis)
    (gen : Int → List ChapterContent → Except String ChapterContent)
    (cfg : PipelineConfig) (md_path tex_path : String) (st : PipelineState) :
    stage_generate_output (.ok md_path) (.ok tex_path) none st =
      .ok ({ st with current_stage := "generating_output" }, md_path)
    ∧ (runPipeline (.ok info) (.ok ca) gen cfg
        (.ok md_path) (.ok tex_path) none).2.2 = .ok md_path := by
  exact ⟨rfl, rfl⟩

/-- C8: when the agent of a registered requested chapter raises, the loop
iteration for that chapter leaves the completed-chapter list exactly as it
was before the attempt and changes the pipeline state only by appending the
single entry `"Chapter n: e"` to the error log, before continuing with the
remaining requested chapters. -/
theorem failed_chapter_changes_only_error_log
    (gen : Int → List ChapterContent → Except String ChapterContent)
    (n : Int) (rest : List Int) (chapters : List ChapterContent)
    (errors : List String) (invoked : List Int) (e : String)
    (hreg : n ∈ agentKeys) (hfail : gen n chapters = .error e) :
    generateChaptersLoop gen (n :: rest) chapters errors invoked =
      generateChaptersLoop gen rest chapters
        (errors ++ [s!"Chapter {n}: {e}"]) (invoked ++ [n]) := by
  simp only [generateChaptersLoop, if_pos hreg, hfail]

/-- Witness for C8: chapter 2's agent fails with one chapter already
completed; the iteration keeps the completed list `[ok_chapter 1]` and
appends exactly `"Chapter 2: boom"`. -/
theorem failed_chapter_changes_only_error_log_witness :
    (2 : Int) ∈ agentKeys
    ∧ gen_fail2 2 [ok_chapter 1] = .error "boom"
    ∧ generateChaptersLoop gen_fail2 [2, 3] [ok_chapter 1] [] [1] =
        generateChaptersLoop gen_fail2 [3] [ok_chapter 1]
          ([] ++ [s!"Chapter {(2 : Int)}: boom"]) ([1] ++ [(2 : Int)]) :=
  ⟨by decide, rfl,
    failed_chapter_changes_only_error_log gen_fail2 2 [3] [ok_chapter 1] [] [1]
      "boom" (by decide) rfl⟩

/-- C9: a requested chapter number outside 1..7 has no registered agent;
the loop iteration for it changes nothing at all — no agent invocation is
recorded, no chapter is appended, no error-log entry is added — and the
loop silently moves on to the remaining requested numbers. -/
theorem unregistered_chapter_silently_skipped
    (gen : Int → List ChapterContent → Except String ChapterContent)
    (n : Int) (rest : List Int) (chapters : List ChapterContent)
    (errors : List String) (invoked : List Int)
    (hout : n < 1 ∨ 7 < n) :
    n ∉ agentKeys
    ∧ generateChaptersLoop gen (n :: rest) chapters errors invoked =
        generateChaptersLoop gen rest chapters errors invoked := by
  have hn : n ∉ agentKeys := by
    simp only [agentKeys, List.mem_cons, List.not_mem_nil, or_false]
    omega
  exact ⟨hn, by simp only [generateChaptersLoop, if_neg hn]⟩

/-- Witness for C9: requested number 9 is skipped without any trace. -/
theorem unregistered_chapter_silently_skipped_witness :
    ((9 : Int) < 1 ∨ 7 < (9 : Int))
    ∧ (9 : Int) ∉ agentKeys
    ∧ generateChaptersLoop gen_all_ok [9, 1] [] [] [] =
        generateChaptersLoop gen_all_ok [1] [] [] [] :=
  ⟨by decide,
    (unregistered_chapter_silently_skipped gen_all_ok 9 [1] [] [] [] (by decide)).1,
    (unregistered_chapter_silently_skipped gen_all_ok 9 [1] [] [] [] (by decide)).2⟩

/-- C6: if the literature search call raises on the query the Introduction
agent builds, the exception stops at the agent boundary and the explicit
placeholder result is substituted: summary `"Literature search
unavailable"`, empty results, empty references and empty key findings,
with the built query preserved — so chapter generation can proceed with a
total result. -/
theorem literature_failure_placeholder
    (search : String → Except String SearchResults)
    (repo_name : String) (repo_description : Option String)
    (keywords : List String) (e : String)
    (hfail : search (build_literature_query repo_name repo_description keywords)
      = .error e) :
    research_literature search repo_name repo_description keywords =
      { query := build_literature_query repo_name repo_description keywords
        results := []
        summary := "Literature search unavailable"
        references := []
        key_findings := [] } := by
  simp only [research_literature, hfail]

/-- Witness for C6: a search oracle that always raises, on a concrete
repository name, description and keyword list. -/
theorem literature_failure_placeholder_witness :
    (fun _ : String => (.error "network down" : Except String SearchResults))
        (build_literature_query "awp" (some "paper generator") ["llm"])
      = .error "network down"
    ∧ research_literature (fun _ => .error "network down")
        "awp" (some "paper generator") ["llm"] =
      { query := build_literature_query "awp" (some "paper generator") ["llm"]
        results := []
        summary := "Literature search unavailable"
        references := []
        key_findings := [] } :=
  ⟨rfl, literature_failure_placeholder (fun _ => .error "network down")
    "awp" (some "paper generator") ["llm"] "network down" rfl⟩

/-- C7: stage 2 raises `"Repository not analyzed"` whenever the state's
`RepositoryInfo` is unset; and when it is set and the code analyzer
returns, the stored analysis result is the analyzer's result with its
`languages` field overwritten by the `RepositoryInfo`'s languages mapping
— language data originates from the repository scan, not the static
parser. -/
theorem stage_analyze_code_spec
    (analyze_result : Except String CodeAnalysis) (st : PipelineState)
    (info : RepositoryInfo) (ca : CodeAnalysis) :
    (st.repo_info = none →
      stage_analyze_code analyze_result st =
        .error ("Repository not analyzed", { st with current_stage := "analyzing_code" }))
    ∧ (st.repo_info = some info → analyze_result = .ok ca →
        stage_analyze_code analyze_result st =
          .ok { st with
                  current_stage := "analyzing_code"
                  code_analysis := some { ca with languages := info.languages } }) := by
  constructor
  · intro hnone
    simp [stage_analyze_code, hnone]
  · intro hsome hok
    simp [stage_analyze_code, hsome, hok]

/-- Repository-information fixture for the stage-2 witness. -/
def repo_info_fixture : RepositoryInfo :=
  { url := "https://github.com/u/r"
    local_path := "/work/repo"
    name := "r"
    languages := [("Python", 1234)] }

/-- Analyzer-result fixture whose own `languages` field differs from the
repository scan's. -/
def code_analysis_fixture : CodeAnalysis :=
  { total_classes := 2
    dependencies := ["requests"]
    languages := [("HTML", 9)] }

/-- Pipeline state holding the repository-information fixture. -/
def st_with_repo : PipelineState := { repo_info := some repo_info_fixture }

/-- Witness for C7: on the fresh state stage 2 raises; on a state holding
repository information the stored analysis carries the repository scan's
languages, not the analyzer's. -/
theorem stage_analyze_code_spec_witness :
    (({} : PipelineState).repo_info = none
      ∧ stage_analyze_code (.ok code_analysis_fixture) {} =
          .error ("Repository not analyzed",
            { ({} : PipelineState) with current_stage := "analyzing_code" }))
    ∧ (st_with_repo.repo_info = some repo_info_fixture
      ∧ stage_analyze_code (.ok code_analysis_fixture) st_with_repo =
          .ok { st_with_repo with
                  current_stage := "analyzing_code"
                  code_analysis := some { code_analysis_fixture with
                    languages := repo_info_fixture.languages } }) :=
  ⟨⟨rfl, (stage_analyze_code_spec (.ok code_analysis_fixture) {}
      repo_info_fixture code_analysis_fixture).1 rfl⟩,
    ⟨rfl, (stage_analyze_code_spec (.ok code_analysis_fixture) st_with_repo
      repo_info_fixture code_analysis_fixture).2 rfl rfl⟩⟩

end AWP
